import Mathlib

set_option maxRecDepth 100000

/-!
Verification of the `rpi_ws281x` Python wrapper
(`src/library/rpi_ws281x/rpi_ws281x.py`) against its specification.

The development shallowly embeds the wrapper's data model and operations:
Python unbounded integers become `Nat`/`Int`, the numpy pixel view becomes a
`List Nat` with numpy's 1-D basic-indexing semantics, fallible operations
return `Except`, and the native `ws2811_*` calls are abstracted by their
returned status codes and the channel fields the wrapper sets through them.
-/

namespace RpiWs281x

/-! ### Color packing: `RGBW` and `Color`

`RGBW.__new__` (rpi_ws281x.py lines 9-16): with all of g, b, w given
(w defaulting to 0 when None) the packed value is
`(w << 24) | (r << 16) | (g << 8) | b` — note: no masking of the inputs.
The component properties (lines 18-32) mask on read with `& 0xff`. -/

/-- Packed value built by `RGBW.__new__` on its four-component path:
`(w << 24) | (r << 16) | (g << 8) | b`, exactly as in the source (no
masking applied to the inputs). -/
def RGBW.pack (r g b w : Nat) : Nat :=
  (w <<< 24) ||| (r <<< 16) ||| (g <<< 8) ||| b

/-- `RGBW.__new__(r, g, b, w)` with optional arguments:
if g, b, w are all `None` the integer `r` is taken as the packed value
already; otherwise g and b must be present (else Python raises a
`TypeError` from `None` arithmetic, modelled as `none`) and a missing w
defaults to 0. -/
def RGBW.new (r : Nat) (g b w : Option Nat) : Option Nat :=
  match g, b, w with
  | none, none, none => some r
  | some gv, some bv, wv => some (RGBW.pack r gv bv (wv.getD 0))
  | _, _, _ => none

/-- `RGBW.r` property: `(self >> 16) & 0xff`. -/
def RGBW.r (c : Nat) : Nat := (c >>> 16) &&& 0xff

/-- `RGBW.g` property: `(self >> 8) & 0xff`. -/
def RGBW.g (c : Nat) : Nat := (c >>> 8) &&& 0xff

/-- `RGBW.b` property: `self & 0xff`. -/
def RGBW.b (c : Nat) : Nat := c &&& 0xff

/-- `RGBW.w` property: `(self >> 24) & 0xff`. -/
def RGBW.w (c : Nat) : Nat := (c >>> 24) &&& 0xff

/-- `Color(red, green, blue, white=0)` (lines 36-41): just
`RGBW(red, green, blue, white)` on the four-component path. -/
def Color (red green blue : Nat) (white : Nat := 0) : Nat :=
  RGBW.pack red green blue white

/-- The packing formula the spec claims is stored: every component masked
to 8 bits on write.  Written from the spec's words, for comparison with
`RGBW.pack` (the source applies no such masks). -/
def maskedPackSpec (r g b w : Nat) : Nat :=
  ((w &&& 0xff) <<< 24) ||| ((r &&& 0xff) <<< 16) ||| ((g &&& 0xff) <<< 8) ||| (b &&& 0xff)

/-! #### Arithmetic form of the packing -/

theorem lor_shiftLeft_eq_add (a b n : Nat) (hb : b < 2 ^ n) :
    ((a <<< n) ||| b) = a * 2 ^ n + b := by
  rw [Nat.shiftLeft_eq, Nat.mul_comm, ← Nat.mul_add_lt_is_or hb, Nat.mul_comm]

theorem pack_eq_add (r g b w : Nat) (hr : r < 256) (hg : g < 256) (hb : b < 256) :
    RGBW.pack r g b w = w * 2 ^ 24 + r * 2 ^ 16 + g * 2 ^ 8 + b := by
  have e8 : (2 : Nat) ^ 8 = 256 := by norm_num
  have e16 : (2 : Nat) ^ 16 = 65536 := by norm_num
  have e24 : (2 : Nat) ^ 24 = 16777216 := by norm_num
  have h1 : (g <<< 8) ||| b = g * 2 ^ 8 + b :=
    lor_shiftLeft_eq_add g b 8 (by omega)
  have h2 : (r <<< 16) ||| (g * 2 ^ 8 + b) = r * 2 ^ 16 + (g * 2 ^ 8 + b) :=
    lor_shiftLeft_eq_add r (g * 2 ^ 8 + b) 16 (by rw [e16, e8]; omega)
  have h3 : (w <<< 24) ||| (r * 2 ^ 16 + (g * 2 ^ 8 + b))
      = w * 2 ^ 24 + (r * 2 ^ 16 + (g * 2 ^ 8 + b)) :=
    lor_shiftLeft_eq_add w _ 24 (by rw [e24, e16, e8]; omega)
  unfold RGBW.pack
  simp only [Nat.lor_assoc]
  rw [h1, h2, h3, Nat.add_assoc, Nat.add_assoc]

/-- Reading a component back from the additive form. -/
theorem comps_of_add (r g b w : Nat) (hr : r < 256) (hg : g < 256)
    (hb : b < 256) (hw : w < 256) :
    RGBW.r (w * 2 ^ 24 + r * 2 ^ 16 + g * 2 ^ 8 + b) = r ∧
    RGBW.g (w * 2 ^ 24 + r * 2 ^ 16 + g * 2 ^ 8 + b) = g ∧
    RGBW.b (w * 2 ^ 24 + r * 2 ^ 16 + g * 2 ^ 8 + b) = b ∧
    RGBW.w (w * 2 ^ 24 + r * 2 ^ 16 + g * 2 ^ 8 + b) = w := by
  have hmask : (0xff : Nat) = 2 ^ 8 - 1 := by norm_num
  unfold RGBW.r RGBW.g RGBW.b RGBW.w
  simp only [Nat.shiftRight_eq_div_pow, hmask, Nat.and_pow_two_sub_one_eq_mod]
  norm_num
  omega

/-- C1: Round-trip packing: for all r, g, b, w in [0,255], packing them
with `Color(r, g, b, w)` (equivalently `RGBW(r, g, b, w)`) and reading the
`.r`, `.g`, `.b`, `.w` properties yields exactly the original components. -/
theorem color_roundtrip (r g b w : Nat)
    (hr : r ≤ 255) (hg : g ≤ 255) (hb : b ≤ 255) (hw : w ≤ 255) :
    RGBW.r (Color r g b w) = r ∧ RGBW.g (Color r g b w) = g ∧
    RGBW.b (Color r g b w) = b ∧ RGBW.w (Color r g b w) = w ∧
    Color r g b w = RGBW.pack r g b w ∧
    RGBW.new r (some g) (some b) (some w) = some (Color r g b w) := by
  have hadd : Color r g b w = w * 2 ^ 24 + r * 2 ^ 16 + g * 2 ^ 8 + b :=
    pack_eq_add r g b w (by omega) (by omega) (by omega)
  obtain ⟨h1, h2, h3, h4⟩ :=
    comps_of_add r g b w (by omega) (by omega) (by omega) (by omega)
  refine ⟨?_, ?_, ?_, ?_, rfl, rfl⟩ <;> rw [hadd]
  exacts [h1, h2, h3, h4]

theorem color_roundtrip_witness :
    RGBW.r (Color 1 2 3 4) = 1 ∧ RGBW.g (Color 1 2 3 4) = 2 ∧
    RGBW.b (Color 1 2 3 4) = 3 ∧ RGBW.w (Color 1 2 3 4) = 4 ∧
    Color 1 2 3 4 = RGBW.pack 1 2 3 4 ∧
    RGBW.new 1 (some 2) (some 3) (some 4) = some (Color 1 2 3 4) :=
  color_roundtrip 1 2 3 4 (by decide) (by decide) (by decide) (by decide)

/-- C2 counterexample: components are not masked on write.  At r = 256
(g = b = w = 0) the stored packed value is `256 << 16 = 0x1000000`, while
the spec's masked formula gives 0 — and the out-of-range red even bleeds
into the white field on read-back. -/
theorem pack_not_masked_counterexample :
    RGBW.pack 256 0 0 0 = 16777216 ∧ maskedPackSpec 256 0 0 0 = 0 ∧
    RGBW.pack 256 0 0 0 ≠ maskedPackSpec 256 0 0 0 ∧
    RGBW.w (RGBW.pack 256 0 0 0) = 1 := by decide

/-- C2 amended: no masking is applied on write; the stored value is the
raw `(w << 24) | (r << 16) | (g << 8) | b`, which agrees with the spec's
masked formula exactly when every component is already in [0,255] (the
`and 0xff` masks happen only on read, in the component properties).
`setPixelColorRGB` stores `Color r g b w`, so the same equality applies
to the value it writes. -/
theorem pack_masked_iff_bounded (r g b w : Nat)
    (hr : r ≤ 255) (hg : g ≤ 255) (hb : b ≤ 255) (hw : w ≤ 255) :
    RGBW.pack r g b w = maskedPackSpec r g b w ∧
    Color r g b w = maskedPackSpec r g b w := by
  have hmask : (0xff : Nat) = 2 ^ 8 - 1 := by norm_num
  have mr : r &&& 0xff = r := by
    rw [hmask, Nat.and_pow_two_sub_one_eq_mod]; omega
  have mg : g &&& 0xff = g := by
    rw [hmask, Nat.and_pow_two_sub_one_eq_mod]; omega
  have mb : b &&& 0xff = b := by
    rw [hmask, Nat.and_pow_two_sub_one_eq_mod]; omega
  have mw : w &&& 0xff = w := by
    rw [hmask, Nat.and_pow_two_sub_one_eq_mod]; omega
  unfold maskedPackSpec
  rw [mr, mg, mb, mw]
  exact ⟨rfl, rfl⟩

theorem pack_masked_iff_bounded_witness :
    RGBW.pack 1 2 3 4 = maskedPackSpec 1 2 3 4 ∧
    Color 1 2 3 4 = maskedPackSpec 1 2 3 4 :=
  pack_masked_iff_bounded 1 2 3 4 (by decide) (by decide) (by decide) (by decide)

/-! ### The numpy pixel view

`_PixelStripBase.__getitem__ / __setitem__ / setPixelColor / getPixelColor`
(lines 48-69 and 105-107) all delegate to `self._view[pos]` where `_view`
is a 1-D numpy array.  We embed the view as a `List Nat` with numpy's 1-D
basic-indexing semantics: an integer index is wrapped once if negative and
raises `IndexError` ("index out of bounds") when still out of range; a
basic slice never raises — its bounds are clamped to the valid range. -/

/-- Errors surfaced by the wrapper (Python exception classes flattened to
the data the claims talk about). -/
inductive WsError where
  /-- numpy `IndexError`: index out of bounds. -/
  | indexOutOfRange
  /-- Python `AttributeError` on a missing attribute. -/
  | attributeError (name : String)
  /-- Python `TypeError` (e.g. a native call on a `None` handle). -/
  | typeError
  /-- `RuntimeError` raised by `begin` with the `ws2811_init` status code. -/
  | initFailed (code : Int)
  /-- `RuntimeError` raised by `show` with the `ws2811_render` status code. -/
  | renderFailed (code : Int)
  /-- `PixelStrip.InvalidStrip` raised by `createPixelSubStrip`. -/
  | invalidStrip
deriving DecidableEq, Repr

/-- Integer indexing of a 1-D numpy array: a negative index is wrapped by
the length once; an index still out of range raises `IndexError`. -/
def npGetInt (xs : List Nat) (n : Int) : Except WsError Nat :=
  let i : Int := if n < 0 then n + xs.length else n
  if 0 ≤ i ∧ i < xs.length then .ok (xs.getD i.toNat 0)
  else .error .indexOutOfRange

/-- Integer store into a 1-D numpy array (`arr[n] = v`): same index
normalization and bounds check as `npGetInt`; in range, the element is
replaced in place. -/
def npSetInt (xs : List Nat) (n : Int) (v : Nat) : Except WsError (List Nat) :=
  let i : Int := if n < 0 then n + xs.length else n
  if 0 ≤ i ∧ i < xs.length then .ok (xs.set i.toNat v)
  else .error .indexOutOfRange

/-- Normalization of one slice bound (start with default 0, stop with
default `len`), as in CPython/numpy `slice.indices` for step 1: a negative
bound is wrapped then clamped below at 0; a non-negative bound is clamped
above at `len`. -/
def npSliceBound (len : Int) (dflt : Int) (x : Option Int) : Int :=
  match x with
  | none => dflt
  | some s => if s < 0 then max (s + len) 0 else min s len

/-- Reading a basic slice `arr[a:b]`: bounds are clamped, never raising. -/
def npGetSlice (xs : List Nat) (a b : Option Int) : List Nat :=
  let lo := npSliceBound xs.length 0 a
  let hi := npSliceBound xs.length xs.length b
  ((xs.drop lo.toNat).take (hi - lo).toNat)

/-- Storing a scalar into a basic slice `arr[a:b] = v` (numpy broadcast):
every element of the clamped range is replaced by `v`; never raises. -/
def npSetSlice (xs : List Nat) (a b : Option Int) (v : Nat) : List Nat :=
  let lo := npSliceBound xs.length 0 a
  let hi := npSliceBound xs.length xs.length b
  xs.take lo.toNat ++ List.replicate (hi - lo).toNat v
    ++ xs.drop (lo.toNat + (hi - lo).toNat)

/-- A Python subscript position: an integer or a basic slice. -/
inductive PyIndex where
  | int (n : Int)
  | slice (a b : Option Int)
deriving DecidableEq, Repr

/-- Result of a subscript read: a scalar for an integer index, an array
for a slice. -/
inductive NpResult where
  | scalar (v : Nat)
  | arr (vs : List Nat)
deriving DecidableEq, Repr

/-- `self._view[pos]` as used by `__getitem__` and `getPixelColor`. -/
def npGetItem (xs : List Nat) : PyIndex → Except WsError NpResult
  | .int n => (npGetInt xs n).map .scalar
  | .slice a b => .ok (.arr (npGetSlice xs a b))

/-- `self._view[pos] = value` (scalar value) as used by `__setitem__` and
`setPixelColor`. -/
def npSetItem (xs : List Nat) (v : Nat) : PyIndex → Except WsError (List Nat)
  | .int n => npSetInt xs n v
  | .slice a b => .ok (npSetSlice xs a b v)

theorem npSliceBound_range (len dflt : Int) (x : Option Int)
    (h0 : 0 ≤ dflt) (hl : dflt ≤ len) (hlen : 0 ≤ len) :
    0 ≤ npSliceBound len dflt x ∧ npSliceBound len dflt x ≤ len := by
  unfold npSliceBound
  rcases x with _ | s
  · simp; omega
  · simp only
    split <;> constructor <;> simp [le_max_iff, max_le_iff, le_min_iff, min_le_iff] <;> omega

/-- Slice stores preserve the buffer length. -/
theorem npSetSlice_length (xs : List Nat) (a b : Option Int) (v : Nat) :
    (npSetSlice xs a b v).length = xs.length := by
  unfold npSetSlice
  obtain ⟨hlo0, hloL⟩ :=
    npSliceBound_range (xs.length : Int) 0 a (by omega) (by omega) (by omega)
  obtain ⟨hhi0, hhiL⟩ :=
    npSliceBound_range (xs.length : Int) (xs.length : Int) b (by omega)
      (by omega) (by omega)
  simp only [List.length_append, List.length_take, List.length_replicate,
    List.length_drop]
  omega

/-- Integer stores preserve the buffer length. -/
theorem npSetInt_length (xs ys : List Nat) (n : Int) (v : Nat)
    (h : npSetInt xs n v = .ok ys) : ys.length = xs.length := by
  dsimp only [npSetInt] at h
  split at h <;> split at h <;> first
    | (simp only [Except.ok.injEq] at h; rw [← h, List.length_set])
    | exact absurd h (by simp)

/-- C3 counterexample: a slice access with out-of-range bounds does not
fail.  On a 3-pixel view, reading `view[5:10]` succeeds and returns an
empty array, and writing `view[5:10] = 7` succeeds leaving the buffer
unchanged — numpy clamps slice bounds instead of raising. -/
theorem slice_out_of_range_no_error :
    npGetItem [10, 11, 12] (.slice (some 5) (some 10)) = .ok (.arr []) ∧
    npSetItem [10, 11, 12] 7 (.slice (some 5) (some 10)) = .ok [10, 11, 12] := by
  constructor <;> rfl

/-- C3 amended: integer-index accesses (get via `__getitem__` /
`getPixelColor`, set via `__setitem__` / `setPixelColor`) succeed exactly
when `-len <= n < len` and fail with the index-out-of-range error
otherwise; an in-range store really stores the value (reading the same
position back yields it).  Slice accesses, by contrast, never fail: numpy
clamps out-of-range slice bounds. -/
theorem index_bounds_check (xs : List Nat) (n : Int) (v : Nat)
    (a b : Option Int) :
    ((∃ r, npGetItem xs (.int n) = .ok r) ↔
      (-(xs.length : Int) ≤ n ∧ n < xs.length)) ∧
    (npGetItem xs (.int n) = .error .indexOutOfRange ↔
      ¬(-(xs.length : Int) ≤ n ∧ n < xs.length)) ∧
    ((∃ ys, npSetItem xs v (.int n) = .ok ys) ↔
      (-(xs.length : Int) ≤ n ∧ n < xs.length)) ∧
    (npSetItem xs v (.int n) = .error .indexOutOfRange ↔
      ¬(-(xs.length : Int) ≤ n ∧ n < xs.length)) ∧
    (∀ ys, npSetItem xs v (.int n) = .ok ys →
      npGetItem ys (.int n) = .ok (.scalar v)) ∧
    (∃ r, npGetItem xs (.slice a b) = .ok r) ∧
    (∃ ys, npSetItem xs v (.slice a b) = .ok ys) := by
  refine ⟨?_, ?_, ?_, ?_, ?_, ⟨_, rfl⟩, ⟨_, rfl⟩⟩
  · dsimp only [npGetItem, npGetInt]
    split <;> split <;> simp_all [Except.map] <;> omega
  · dsimp only [npGetItem, npGetInt]
    split <;> split <;> simp_all [Except.map] <;> omega
  · dsimp only [npSetItem, npSetInt]
    split <;> split <;> simp_all <;> omega
  · dsimp only [npSetItem, npSetInt]
    split <;> split <;> simp_all <;> omega
  · intro ys hys
    dsimp only [npSetItem, npSetInt] at hys
    dsimp only [npGetItem, npGetInt]
    split at hys <;> split at hys <;>
      simp only [Except.ok.injEq, reduceCtorEq] at hys
    · rename_i hneg hrange
      subst hys
      have hlen : ((xs.set (n + xs.length).toNat v).length : Int) = xs.length := by
        simp [List.length_set]
      rw [if_pos (by omega), hlen, if_pos (by omega)]
      simp only [Except.map, List.getD_eq_getElem?_getD]
      rw [List.getElem?_set_self (by omega)]
      rfl
    · rename_i hneg hrange
      subst hys
      have hlen : ((xs.set n.toNat v).length : Int) = xs.length := by
        simp [List.length_set]
      rw [if_neg hneg, hlen, if_pos (by omega)]
      simp only [Except.map, List.getD_eq_getElem?_getD]
      rw [List.getElem?_set_self (by omega)]
      rfl

theorem index_bounds_check_witness :
    ((∃ r, npGetItem [5, 6] (.int 1) = .ok r) ↔
      (-((([5, 6] : List Nat).length : Int)) ≤ 1 ∧
        (1 : Int) < ([5, 6] : List Nat).length)) ∧
    (npGetItem [5, 6] (.int 1) = .error .indexOutOfRange ↔
      ¬(-((([5, 6] : List Nat).length : Int)) ≤ 1 ∧
        (1 : Int) < ([5, 6] : List Nat).length)) ∧
    ((∃ ys, npSetItem [5, 6] 9 (.int 1) = .ok ys) ↔
      (-((([5, 6] : List Nat).length : Int)) ≤ 1 ∧
        (1 : Int) < ([5, 6] : List Nat).length)) ∧
    (npSetItem [5, 6] 9 (.int 1) = .error .indexOutOfRange ↔
      ¬(-((([5, 6] : List Nat).length : Int)) ≤ 1 ∧
        (1 : Int) < ([5, 6] : List Nat).length)) ∧
    (∀ ys, npSetItem [5, 6] 9 (.int 1) = .ok ys →
      npGetItem ys (.int 1) = .ok (.scalar 9)) ∧
    (∃ r, npGetItem [5, 6] (.slice (some 0) (some 9)) = .ok r) ∧
    (∃ ys, npSetItem [5, 6] 9 (.slice (some 0) (some 9)) = .ok ys) :=
  index_bounds_check [5, 6] 1 9 (some 0) (some 9)

/-! ### The `PixelStrip` object

The wrapper's state is the set of attributes `PixelStrip.__init__`
(lines 127-180) and `begin` (lines 197-210) assign: the native `ws2811_t`
handle `_leds` (tracked as present/absent), the channel structure with the
fields the wrapper sets through `ws2811_channel_t_*_set`, the remembered
`size`, and the numpy view `_view` (initially the empty array
`np.zeros((0))`; replaced by the native array of `count` elements in
`begin`).  `freq_hz` and `dma` are also forwarded to the native struct but
no claim mentions them.  The native calls `ws2811_init` / `ws2811_render`
are abstracted by the status code they return. -/

/-- Per-channel fields the wrapper sets via `ws2811_channel_t_*_set`. -/
structure Channel where
  gamma : List Nat
  count : Nat
  gpionum : Nat
  invert : Nat
  brightness : Nat
  strip_type : Nat
deriving DecidableEq, Repr

/-- `ws.WS2811_STRIP_GRB` (value from the wrapped native library's
header; used only as an opaque tag by the wrapper). -/
def WS2811_STRIP_GRB : Nat := 0x00081000

/-- A Python argument that may be `None`, an int tag, or a list
(`strip_type` accepts a 256-entry list for gamma back-compat). -/
inductive PyArg where
  | none
  | intTag (n : Nat)
  | natList (xs : List Nat)
deriving DecidableEq, Repr

/-- State of a `PixelStrip` object: exactly the instance attributes the
source assigns (`_leds`, `_channel`, `size`, `_view`; `_colors` is a
byte-level reinterpretation of `_view` and carries no separate state). -/
structure PixelStrip where
  leds : Option Unit
  channel : Option Channel
  size : Nat
  view : List Nat
deriving DecidableEq, Repr

/-- Names of the instance attributes ever assigned on a `PixelStrip`:
`_leds`, `_channel` (lines 154, 157, and `None` in `_cleanup`), `size`
(line 170), `_view`, `_colors` (lines 174-175, reassigned in `begin`).
Notably absent: `strip` (used by the inherited brightness accessors and
`off`) and `_values` (used by `PixelSubStrip.__init__`). -/
def pixelStripInstanceAttrs : List String :=
  ["_leds", "_channel", "size", "_view", "_colors"]

/-- `PixelStrip.__init__`: resolves the gamma/strip_type back-compat
defaulting (lines 141-151), fills the channel fields, remembers `size`,
and sets `_view` to an empty array (line 174).  A `strip_type` that is a
non-256 list would be handed to the native setter and rejected there;
that native type error is outside the wrapper and modelled as tag 0. -/
def stripInit (num pin : Nat) (invert : Bool := false)
    (brightness : Nat := 255) (strip_type : PyArg := .none)
    (gamma : Option (List Nat) := none) : PixelStrip :=
  let resolved : List Nat × PyArg :=
    match gamma with
    | some gs => (gs, strip_type)
    | none =>
      match strip_type with
      | .natList xs =>
        if xs.length = 256 then (xs, PyArg.none)
        else (List.range 256, strip_type)
      | st => (List.range 256, st)
  let stripTypeTag : Nat :=
    match resolved.2 with
    | .none => WS2811_STRIP_GRB
    | .intTag t => t
    | .natList _ => 0
  { leds := some ()
  , channel := some
      { gamma := resolved.1
      , count := num
      , gpionum := pin
      , invert := if invert then 1 else 0
      , brightness := brightness
      , strip_type := stripTypeTag }
  , size := num
  , view := [] }

/-- `__len__` (lines 61-62): `self._view.shape[0]`; `numPixels` returns
the same. -/
def stripLen (s : PixelStrip) : Nat := s.view.length

/-- `PixelStrip.begin` (lines 197-210): raises `RuntimeError` carrying
the status code when `ws2811_init` returns nonzero; on success replaces
`_view` with the native array of the channel (one zero-initialized word
per pixel of `count`).  With a cleaned-up (`None`) channel the native
array lookup is a `TypeError`. -/
def beginS (s : PixelStrip) (resp : Int) : Except WsError PixelStrip :=
  if resp ≠ 0 then .error (.initFailed resp)
  else
    match s.channel with
    | some ch => .ok { s with view := List.replicate ch.count 0 }
    | none => .error .typeError

/-- `PixelStrip.show` (lines 212-217): raises `RuntimeError` carrying the
status code when `ws2811_render` returns nonzero, otherwise returns with
the object unchanged. -/
def showS (s : PixelStrip) (resp : Int) : Except WsError PixelStrip :=
  if resp ≠ 0 then .error (.renderFailed resp) else .ok s

/-- Native actions `_cleanup` can perform. -/
inductive FinAction where
  | wsFini
  | deleteLedsStruct
deriving DecidableEq, Repr

/-- `PixelStrip._cleanup` (lines 185-191): when `_leds` is not `None`,
calls `ws2811_fini` and `delete_ws2811_t` and clears `_leds` and
`_channel`; otherwise does nothing. -/
def cleanupS (s : PixelStrip) : PixelStrip × List FinAction :=
  match s.leds with
  | some _ => ({ s with leds := none, channel := none },
               [.wsFini, .deleteLedsStruct])
  | none => (s, [])

/-- `PixelStrip.setGamma` (lines 193-195): updates the channel gamma only
when the argument is a list of exactly 256 entries; anything else is
silently ignored.  The function is total — `setGamma` contains no raise
and calls nothing that can fail. -/
def setGammaS (s : PixelStrip) (gamma : PyArg) : PixelStrip :=
  match gamma with
  | .natList xs =>
    if xs.length = 256 then
      { s with channel := s.channel.map fun ch => { ch with gamma := xs } }
    else s
  | _ => s

/-- `_PixelStripBase.getBrightness` (lines 78-79): reads
`self.strip._channel` — but `PixelStrip` never assigns a `strip`
attribute, so on a `PixelStrip` the lookup raises `AttributeError`. -/
def getBrightnessS (s : PixelStrip) : Except WsError Nat :=
  if "strip" ∈ pixelStripInstanceAttrs then
    .ok ((s.channel.map (·.brightness)).getD 0)
  else .error (.attributeError "strip")

/-- `_PixelStripBase.setBrightness` (lines 81-87): writes through
`self.strip._channel`; same missing `strip` attribute on `PixelStrip`. -/
def setBrightnessS (s : PixelStrip) (b : Nat) : Except WsError PixelStrip :=
  if "strip" ∈ pixelStripInstanceAttrs then
    .ok { s with channel := s.channel.map fun ch => { ch with brightness := b } }
  else .error (.attributeError "strip")

/-! ### Sub-strips -/

/-- What a constructed `PixelSubStrip` would hold (its own `strip`
back-reference is the parent object; `_view`/`_colors` would be numpy
slice views of the parent's arrays). -/
structure SubStrip where
  first : Nat
  last : Nat
  view : List Nat
deriving DecidableEq, Repr

/-- `PixelStrip.PixelSubStrip.__init__` (lines 255-266): after defaulting
`first` to 0 and `last` to `first + num` or `len(strip)`, it evaluates
`strip._values[first:last]` — and `PixelStrip` has no `_values` attribute
(its array view is called `_view`), so the lookup raises
`AttributeError` before any view is created.  The `ok` branch below is
unreachable (`"_values"` is not among the assigned attribute names). -/
def subStripInit (strip : PixelStrip) (first : Nat)
    (last num : Option Nat) : Except WsError SubStrip :=
  let lastv : Nat :=
    match last with
    | some l => l
    | none =>
      match num with
      | some k => first + k
      | none => stripLen strip
  if "_values" ∈ pixelStripInstanceAttrs then
    .ok { first := first, last := lastv
        , view := npGetSlice strip.view (some first) (some lastv) }
  else .error (.attributeError "_values")

/-- The `num`/fallback branches of `createPixelSubStrip` (lines 234-241),
reached when `last` is `None` or falsy. -/
def createSubStripNum (s : PixelStrip) (first : Nat)
    (num : Option Nat) : Except WsError SubStrip :=
  match num with
  | some k =>
    if k ≠ 0 then
      if first + k > stripLen s then .error .invalidStrip
      else subStripInit s first none (some k)
    else subStripInit s first none none
  | none => subStripInit s first none none

/-- `PixelStrip.createPixelSubStrip` (lines 219-241).  Note the Python
truthiness tests: `if last:` and `if num:` treat 0 like `None`. -/
def createPixelSubStrip (s : PixelStrip) (first : Nat)
    (last : Option Nat := none) (num : Option Nat := none) :
    Except WsError SubStrip :=
  match last with
  | some l =>
    if l ≠ 0 then
      if l > stripLen s then .error .invalidStrip
      else subStripInit s first (some l) none
    else createSubStripNum s first num
  | none => createSubStripNum s first num

/-! ### Post-`begin` lifetime: operations that touch the buffer -/

/-- Operations a client can run on a strip after `begin` (the ones the
claims are about; each is the source method applied to the state). -/
inductive Op where
  /-- `setPixelColor n color` / `__setitem__` with an integer index. -/
  | setPix (n : Int) (v : Nat)
  /-- `setPixelColor` / `__setitem__` with a slice and a scalar color. -/
  | fillSlice (a b : Option Int) (v : Nat)
  /-- `setPixelColorRGB n r g b w`. -/
  | setPixRGB (n : Int) (r g b w : Nat)
  /-- `setGamma gamma`. -/
  | gammaOp (gamma : PyArg)
  /-- `show` with the status `ws2811_render` returns. -/
  | showOp (resp : Int)
deriving DecidableEq, Repr

/-- Run one operation.  A raising operation leaves the state as it was
(a failed numpy store mutates nothing; a `show` failure raises after the
render call). -/
def applyOp (s : PixelStrip) : Op → PixelStrip
  | .setPix n v =>
    match npSetInt s.view n v with
    | .ok xs => { s with view := xs }
    | .error _ => s
  | .fillSlice a b v => { s with view := npSetSlice s.view a b v }
  | .setPixRGB n r g b w =>
    match npSetInt s.view n (Color r g b w) with
    | .ok xs => { s with view := xs }
    | .error _ => s
  | .gammaOp gm => setGammaS s gm
  | .showOp _ => s

/-- Run a client program. -/
def runOps (s : PixelStrip) : List Op → PixelStrip
  | [] => s
  | op :: rest => runOps (applyOp s op) rest

theorem applyOp_view_length (s : PixelStrip) (op : Op) :
    ((applyOp s op).view).length = s.view.length := by
  cases op with
  | setPix n v =>
    dsimp only [applyOp]
    split
    · next xs h => exact npSetInt_length _ _ _ _ h
    · rfl
  | fillSlice a b v => exact npSetSlice_length _ _ _ _
  | setPixRGB n r g b w =>
    dsimp only [applyOp]
    split
    · next xs h => exact npSetInt_length _ _ _ _ h
    · rfl
  | gammaOp gm =>
    dsimp only [applyOp, setGammaS]
    cases gm <;> simp only
    split <;> rfl
  | showOp resp => rfl

theorem runOps_view_length (ops : List Op) (s : PixelStrip) :
    ((runOps s ops).view).length = s.view.length := by
  induction ops generalizing s with
  | nil => rfl
  | cons op rest ih => rw [runOps, ih, applyOp_view_length]

/-! ### Concrete demonstration objects shared by several results -/

/-- `PixelStrip(2, 18)` right after `__init__`. -/
def demoStrip : PixelStrip := stripInit 2 18

/-- The same strip after a successful `begin()` (native init status 0):
the view is the 2-element native array. -/
def demoBegun : PixelStrip := { demoStrip with view := [0, 0] }

/-- The channel record `PixelStrip(2, 18)` configures. -/
def demoChannel : Channel :=
  { gamma := List.range 256, count := 2, gpionum := 18, invert := 0,
    brightness := 255, strip_type := WS2811_STRIP_GRB }

/-! ### C4: buffer length over the object lifetime -/

/-- C4 counterexample: the pixel buffer's length does not equal `num` at
every point of the lifetime.  For `PixelStrip(1, 18)` before `begin()`,
`_view` is the empty placeholder array, so `len(strip)` (and
`numPixels()`) is 0, not 1. -/
theorem strip_len_before_begin_counterexample :
    stripLen (stripInit 1 18) = 0 ∧ (stripInit 1 18).size = 1 ∧
    stripLen (stripInit 1 18) ≠ 1 := by decide

/-- C4 amended: after a successful `begin()` the buffer length
(`len(strip)` = `numPixels()`) equals `num` and is never changed by any
subsequent buffer operation (pixel stores, slice fills, `setGamma`,
`show`); before `begin()` the placeholder view makes the length 0. -/
theorem strip_length_after_begin (num pin : Nat) (resp : Int)
    (ops : List Op) (s' : PixelStrip)
    (h : beginS (stripInit num pin) resp = .ok s') :
    stripLen s' = num ∧ stripLen (runOps s' ops) = num ∧
    stripLen (stripInit num pin) = 0 := by
  dsimp only [beginS, stripInit] at h
  split at h
  · exact absurd h (by simp)
  · simp only [Except.ok.injEq] at h
    subst h
    refine ⟨?_, ?_, rfl⟩
    · simp [stripLen]
    · rw [stripLen, runOps_view_length]
      simp [stripLen]

theorem strip_length_after_begin_witness :
    stripLen demoBegun = 2 ∧
    stripLen (runOps demoBegun [.setPix 0 7, .fillSlice none none 3,
      .gammaOp (.natList []), .showOp 0]) = 2 ∧
    stripLen (stripInit 2 18) = 0 :=
  strip_length_after_begin 2 18 0
    [.setPix 0 7, .fillSlice none none 3, .gammaOp (.natList []), .showOp 0]
    demoBegun rfl

/-! ### C5: idempotent teardown -/

/-- C5: `_cleanup` is idempotent.  In every state a second consecutive
`_cleanup` performs no release actions and leaves the state exactly as the
first call left it; and on an already-finalized object (`_leds` cleared)
`_cleanup` is a complete no-op. -/
theorem cleanup_idempotent (s : PixelStrip) :
    (cleanupS (cleanupS s).1).1 = (cleanupS s).1 ∧
    (cleanupS (cleanupS s).1).2 = [] ∧
    cleanupS { s with leds := none, channel := none }
      = ({ s with leds := none, channel := none }, []) := by
  rcases s with ⟨leds, ch, sz, vw⟩
  cases leds <;> simp [cleanupS]

/-! ### C6: gamma configuration -/

/-- C6 counterexample: configuring an invalid gamma table does not fail
with an invalid-configuration error — it is silently ignored.  On a fresh
strip, `setGamma([])` returns with the object (gamma included) completely
unchanged; `setGamma` contains no raise at all (the model is a total
function into `PixelStrip`, not an `Except`). -/
theorem setGamma_invalid_silently_ignored :
    setGammaS (stripInit 3 18) (.natList []) = stripInit 3 18 := by decide

/-- C6 amended: `setGamma` updates the channel gamma exactly when handed
a list of 256 entries; a wrong-length list or a non-list argument is
silently ignored (no error of any kind), leaving the state unchanged. -/
theorem setGamma_behavior (s : PixelStrip) (ch : Channel)
    (hs : s.channel = some ch) (xs : List Nat) (t : Nat) :
    (setGammaS s (.natList xs)).channel
      = some (if xs.length = 256 then { ch with gamma := xs } else ch) ∧
    (setGammaS s (.natList xs)).view = s.view ∧
    setGammaS s .none = s ∧
    setGammaS s (.intTag t) = s := by
  refine ⟨?_, ?_, rfl, rfl⟩
  · dsimp only [setGammaS]
    split <;> simp_all
  · dsimp only [setGammaS]
    split <;> rfl

theorem setGamma_behavior_witness :
    ((setGammaS demoStrip (.natList [1, 2])).channel
      = some (if ([1, 2] : List Nat).length = 256
          then { demoChannel with gamma := [1, 2] } else demoChannel)) ∧
    (setGammaS demoStrip (.natList [1, 2])).view = demoStrip.view ∧
    setGammaS demoStrip .none = demoStrip ∧
    setGammaS demoStrip (.intTag 5) = demoStrip :=
  setGamma_behavior demoStrip demoChannel rfl [1, 2] 5

/-! ### C7: init/render status propagation -/

/-- C7: `show` raises exactly when `ws2811_render` reports a nonzero
status, with the error carrying that status code, and returns normally
(object unchanged) on status 0; `begin` follows the same
raise-iff-nonzero discipline for `ws2811_init`. -/
theorem show_begin_raise_iff_nonzero (s : PixelStrip) (ch : Channel)
    (hs : s.channel = some ch) (resp : Int) :
    (showS s resp = .ok s ↔ resp = 0) ∧
    (showS s resp = .error (.renderFailed resp) ↔ resp ≠ 0) ∧
    ((∃ s', beginS s resp = .ok s') ↔ resp = 0) ∧
    (beginS s resp = .error (.initFailed resp) ↔ resp ≠ 0) := by
  dsimp only [showS, beginS]
  refine ⟨?_, ?_, ?_, ?_⟩ <;> split <;> simp_all

theorem show_begin_raise_iff_nonzero_witness :
    ((showS demoBegun 0 = .ok demoBegun ↔ (0 : Int) = 0) ∧
    (showS demoBegun 0 = .error (.renderFailed 0) ↔ (0 : Int) ≠ 0) ∧
    ((∃ s', beginS demoBegun 0 = .ok s') ↔ (0 : Int) = 0) ∧
    (beginS demoBegun 0 = .error (.initFailed 0) ↔ (0 : Int) ≠ 0)) :=
  show_begin_raise_iff_nonzero demoBegun demoChannel rfl 0

/-! ### C9: sub-strip creation -/

/-- C9: sub-strip views do not work at the public interface.
`PixelSubStrip.__init__` evaluates `strip._values[first:last]`, but a
`PixelStrip` has no `_values` attribute (its array is `_view`), so every
`createPixelSubStrip` call on an initialized strip — by `last`, by `num`,
or with the to-end default — raises `AttributeError` instead of returning
a working view.  Evaluated here on a begun 2-pixel strip. -/
theorem createPixelSubStrip_attribute_error :
    beginS demoStrip 0 = .ok demoBegun ∧
    createPixelSubStrip demoBegun 0 (some 1) none
      = .error (.attributeError "_values") ∧
    createPixelSubStrip demoBegun 0 (some 2) none
      = .error (.attributeError "_values") ∧
    createPixelSubStrip demoBegun 1 none (some 1)
      = .error (.attributeError "_values") ∧
    createPixelSubStrip demoBegun 0 none none
      = .error (.attributeError "_values") :=
  ⟨rfl, rfl, rfl, rfl, rfl⟩

/-! ### C10: brightness accessors -/

/-- C10: the brightness accessors are broken on a `PixelStrip`.
`getBrightness`/`setBrightness` (inherited from `_PixelStripBase`) read
`self.strip._channel`, but `PixelStrip.__init__` never assigns a `strip`
attribute, so both raise `AttributeError` — before and after `begin()` —
instead of reading or writing the shared channel brightness.  (Sub-strips
would delegate to their parent, but sub-strip creation itself fails, see
the sub-strip result.) -/
theorem brightness_attribute_error :
    getBrightnessS demoBegun = .error (.attributeError "strip") ∧
    setBrightnessS demoBegun 128 = .error (.attributeError "strip") ∧
    getBrightnessS demoStrip = .error (.attributeError "strip") ∧
    setBrightnessS demoStrip 128 = .error (.attributeError "strip") :=
  ⟨rfl, rfl, rfl, rfl⟩

/-! ### The bit encoder (spec §4.3)

The encoder lives in the wrapped native driver, whose source is not part
of this repository's reviewed files; the definitions below are modelled
from the spec. -/

/-- One unit of the device line coding: a "1" bit is a long-high/short-low
pulse, a "0" bit a short-high/long-low pulse; `resetLow` is one unit of
the trailing reset/latch gap. -/
inductive LineSymbol where
  | longHighShortLow
  | shortHighLongLow
  | resetLow
deriving DecidableEq, Repr

/-- Byte-ordering tag (spec: "strip_type: byte-ordering tag
(e.g. GRB/RGB/GRBW)"). -/
inductive ByteOrder where
  | rgb
  | grb
  | grbw
deriving DecidableEq, Repr

/-- Output bytes of one pixel in the order dictated by the strip type. -/
def ByteOrder.orderBytes : ByteOrder → Nat × Nat × Nat × Nat → List Nat
  | .rgb, (r, g, b, _) => [r, g, b]
  | .grb, (r, g, b, _) => [g, r, b]
  | .grbw, (r, g, b, w) => [g, r, b, w]

/-- Modelled from the spec: brightness scaling of one raw component,
`scaled = (raw * brightness) / 255`, integer division rounding down
(spec §4.3). -/
def scaleBrightness (raw brightness : Nat) : Nat := raw * brightness / 255

/-- Modelled from the spec: the 256-entry gamma lookup applied per color
channel (spec §4.3; a table shorter than the required 256 entries yields
0, a case the spec's configuration contract excludes). -/
def gammaLookup (gamma : List Nat) (v : Nat) : Nat := gamma.getD v 0

/-- Modelled from the spec: one output byte emitted most-significant-bit
first into the line coding (spec §4.3). -/
def byteToSymbols (v : Nat) : List LineSymbol :=
  (List.range 8).map fun i =>
    if Nat.testBit v (7 - i) then .longHighShortLow else .shortHighLongLow

/-- Length of the reset/latch gap in line-symbol units.  The spec leaves
the exact duration open ("≥ protocol minimum, e.g. 50-300 microseconds
depending on variant"); any fixed value satisfies the claims stated
here. -/
def resetGapUnits : Nat := 50

/-- Modelled from the spec: encoding of one packed pixel — gamma lookup
per color channel, then brightness scaling, then byte reordering per
strip type, then MSB-first line coding (spec §4.3). -/
def encodePixel (gamma : List Nat) (brightness : Nat) (t : ByteOrder)
    (c : Nat) : List LineSymbol :=
  let comps := t.orderBytes (RGBW.r c, RGBW.g c, RGBW.b c, RGBW.w c)
  (comps.map fun v =>
    byteToSymbols (scaleBrightness (gammaLookup gamma v) brightness)).flatten

/-- Modelled from the spec: the Bit Encoder — a function of the buffer
snapshot, gamma table, brightness and strip type only, emitting every
pixel's line coding followed by the reset/latch gap (spec §4.3). -/
def encode (B : List Nat) (gamma : List Nat) (brightness : Nat)
    (t : ByteOrder) : List LineSymbol :=
  (B.map (encodePixel gamma brightness t)).flatten
    ++ List.replicate resetGapUnits .resetLow

/-- C8: the bit encoder is deterministic — it is a pure function of
(buffer, gamma, brightness, strip_type): two runs on equal inputs produce
byte-identical output, with no hidden state anywhere in the model (every
definition involved is a closed function of its arguments). -/
theorem encode_deterministic (B₁ B₂ gamma₁ gamma₂ : List Nat)
    (br₁ br₂ : Nat) (t₁ t₂ : ByteOrder)
    (hB : B₁ = B₂) (hg : gamma₁ = gamma₂) (hb : br₁ = br₂) (ht : t₁ = t₂) :
    encode B₁ gamma₁ br₁ t₁ = encode B₂ gamma₂ br₂ t₂ := by
  subst hB hg hb ht
  rfl

theorem encode_deterministic_witness :
    encode [Color 255 0 0] (List.range 256) 255 .grb
      = encode [Color 255 0 0] (List.range 256) 255 .grb :=
  encode_deterministic [Color 255 0 0] [Color 255 0 0]
    (List.range 256) (List.range 256) 255 255 .grb .grb rfl rfl rfl rfl

end RpiWs281x
